import Mathlib

/-!
# Verification of the LDC RAG backend's sync / vector-store / lifecycle layer

Shallow embedding of the repository's Python code:

* `app/services/chroma_service.py` (`ChromaService`): vector-store gateway and
  the directory-sync ingestion pipeline;
* `app/core/base_service.py` (`BaseService`): the init/shutdown lifecycle
  template;
* `app/core/application.py` (`Application`): service initialization and
  shutdown ordering;
* `app/services/rag_service.py` (`RAGService.get_answer`): question answering.

Modelling conventions:

* The wall clock (`get_current_timestamp`, `datetime.now(...).isoformat()`) is
  a natural-number counter stored in the service state; each timestamp read
  returns the current counter and advances it, so successive reads are
  strictly increasing.
* Python exceptions are `Except`: an operation that raises before mutating
  state is `.error e`, and the caller's state is untouched (the post-state is
  only produced inside `.ok`).
* Logging is a non-failing no-op.  The `Logger` class (`app/utils/logger.py`)
  is not part of the sources; per the spec, log output never affects the
  operations' results.
* The external Chroma collection assigns fresh ids; we model them as the
  `nextId` counter.  `add_documents`' reply (the id list coming back from the
  backing store) is an explicit argument of `add_document`, since the code
  inspects it (`ids[0] if ids else ""`).
* The LangChain text splitter is an external deterministic collaborator,
  modelled as an arbitrary function `split : String → List String`.
* `os.listdir` for the sync directory is a list of `(filename, content)`
  pairs; an absent directory is `none`, and `os.makedirs(dir, exist_ok=True)`
  turns `none` into `some []`.  `os.path.basename (os.path.join dir f) = f`
  for the plain filenames produced by `os.listdir`.
-/

namespace LDC

/-- Metadata keys that `sync_directory`/`add_document` attach to every stored
chunk (`source`, `document_type`, `content_type`); the timestamps live in
`StoredDoc` itself.  `file_modified_at` is carried by the code but never read
back, so it is omitted. -/
structure DocMeta where
  source : String
  docType : String
  contentType : String
deriving Repr, DecidableEq

/-- One document chunk as stored in the Chroma collection: content, metadata
and the `created_at` / `updated_at` timestamps that `add_document` stamps. -/
structure StoredDoc where
  id : Nat
  content : String
  meta : DocMeta
  createdAt : Nat
  updatedAt : Nat
deriving Repr, DecidableEq

/-- The only error the `ChromaService` guards raise on their first line:
`RuntimeError("ChromaService not initialized")`. -/
inductive SvcError where
  | notInitialized
deriving Repr, DecidableEq

/-- State of `ChromaService`: the `BaseService._initialized` flag, the backing
collection's documents, the id supply of the backing store, and the wall
clock. -/
structure ServiceState where
  initialized : Bool
  docs : List StoredDoc
  nextId : Nat
  clock : Nat
deriving Repr, DecidableEq

/-- The `stats` dictionary built by `ChromaService.sync_directory`. -/
structure SyncStats where
  total_files : Nat
  processed_files : Nat
  skipped_files : Nat
  error_files : Nat
deriving Repr, DecidableEq

/-- Core of `ChromaService.add_document` (chroma_service.py lines 70-85):
stamp `created_at = updated_at = get_current_timestamp()` into the metadata
and append the document to the collection under a fresh id. -/
def addDocCore (s : ServiceState) (content : String) (meta : DocMeta) : ServiceState :=
  { s with
    clock := s.clock + 1
    docs := s.docs ++ [{ id := s.nextId, content := content, meta := meta,
                         createdAt := s.clock, updatedAt := s.clock }]
    nextId := s.nextId + 1 }

/-- `ChromaService.add_document`.  `replyIds` is the id list the backing
store returns from `add_documents([document])`; the method returns
`ids[0] if ids else ""`. -/
def add_document (s : ServiceState) (content : String) (meta : DocMeta)
    (replyIds : List String) : Except SvcError (String × ServiceState) :=
  if s.initialized = false then .error .notInitialized
  else .ok ((match replyIds with | [] => "" | i :: _ => i), addDocCore s content meta)

/-- Core of `ChromaService.delete_document`: `collection.delete(ids=[id])`. -/
def deleteDocCore (s : ServiceState) (docId : Nat) : ServiceState :=
  { s with docs := s.docs.filter (fun d => d.id ≠ docId) }

/-- `ChromaService.delete_document`. -/
def delete_document (s : ServiceState) (docId : Nat) : Except SvcError ServiceState :=
  if s.initialized = false then .error .notInitialized
  else .ok (deleteDocCore s docId)

/-- `ChromaService.delete_all`: fetch every id and delete them all. -/
def delete_all (s : ServiceState) : Except SvcError ServiceState :=
  if s.initialized = false then .error .notInitialized
  else .ok { s with docs := [] }

/-- `ChromaService.get_all_documents`. -/
def get_all_documents (s : ServiceState) : Except SvcError (List StoredDoc) :=
  if s.initialized = false then .error .notInitialized
  else .ok s.docs

/-- `ChromaService.similarity_search`: ranking is delegated to the external
Chroma collaborator, modelled by the `rank` parameter. -/
def similarity_search (rank : List StoredDoc → Nat → List StoredDoc)
    (s : ServiceState) (k : Nat) : Except SvcError (List StoredDoc) :=
  if s.initialized = false then .error .notInitialized
  else .ok (rank s.docs k)

/-- `ChromaService.get_file_documents` / the metadata lookup
`collection.get(where={"source": value})`: exact-match filter on the
`source` metadata key. -/
def get_by_source (s : ServiceState) (src : String) : Except SvcError (List StoredDoc) :=
  if s.initialized = false then .error .notInitialized
  else .ok (s.docs.filter (fun d => d.meta.source = src))

/-- `ChromaService.update_document` (chroma_service.py lines 158-182): delete
the old id, then `add_document` a fresh document built from the new content
and metadata; `add_document` overwrites `created_at`/`updated_at` with the
current timestamp.  The success-path log call is a non-failing no-op here
(the `Logger` class is outside the sources). -/
def update_document (s : ServiceState) (docId : Nat) (newContent : String)
    (newMeta : DocMeta) : Except SvcError ServiceState :=
  if s.initialized = false then .error .notInitialized
  else .ok (addDocCore (deleteDocCore s docId) newContent newMeta)

/-- Core of `ChromaService.is_file_processed`: does any stored document carry
this filename under the `source` metadata key? -/
def fileProcessed (s : ServiceState) (filename : String) : Bool :=
  s.docs.any (fun d => d.meta.source = filename)

/-- `ChromaService.is_file_processed` with its not-initialized guard. -/
def is_file_processed (s : ServiceState) (filename : String) : Except SvcError Bool :=
  if s.initialized = false then .error .notInitialized
  else .ok (fileProcessed s filename)

/-- The metadata `sync_directory` stamps on every chunk of `filename`
(chroma_service.py lines 222-227). -/
def syncMeta (filename : String) : DocMeta :=
  { source := filename, docType := "hr_policy", contentType := "text/plain" }

/-- Python's `str.endswith`, as `filename.endswith('.txt')` uses it: a
suffix test on the character sequence. -/
def pyEndsWith (s suffix : String) : Bool :=
  suffix.toList.isSuffixOf s.toList

/-- The inner loop of `sync_directory` (lines 220-229): for every chunk of a
newly-processed file, attach the sync metadata, `add_document` it, and
increment `processed_files` — once per chunk, as the code does. -/
def addChunks (filename : String) :
    List String → SyncStats → ServiceState → SyncStats × ServiceState
  | [], stats, st => (stats, st)
  | chunk :: rest, stats, st =>
      addChunks filename rest
        { stats with processed_files := stats.processed_files + 1 }
        (addDocCore st chunk (syncMeta filename))

/-- The per-file loop of `sync_directory` (lines 208-235): count each `.txt`
file in `total_files`; skip it when `is_file_processed` finds its filename in
the store, else load, split and add its chunks.  In this model loading a
listed file and adding chunks cannot raise, so the `except` branch
(`error_files`) is unreachable. -/
def syncLoop (split : String → List String) :
    List (String × String) → SyncStats → ServiceState → SyncStats × ServiceState
  | [], stats, st => (stats, st)
  | (filename, content) :: rest, stats, st =>
      if pyEndsWith filename ".txt" then
        if fileProcessed st filename then
          syncLoop split rest
            { stats with total_files := stats.total_files + 1,
                         skipped_files := stats.skipped_files + 1 } st
        else
          let p := addChunks filename (split content)
            { stats with total_files := stats.total_files + 1 } st
          syncLoop split rest p.1 p.2
      else
        syncLoop split rest stats st

/-- `ChromaService.sync_directory` (lines 184-237): guard, then
`os.makedirs(directory, exist_ok=True)` (an absent directory becomes an empty
one), then the per-file loop over the listing.  The result also carries the
directory as it exists after `makedirs`. -/
def sync_directory (split : String → List String) (s : ServiceState)
    (dir : Option (List (String × String))) :
    Except SvcError (SyncStats × ServiceState × Option (List (String × String))) :=
  if s.initialized = false then .error .notInitialized
  else
    let files := dir.getD []
    let p := syncLoop split files ⟨0, 0, 0, 0⟩ s
    .ok (p.1, p.2, some files)

/-! ## `BaseService` lifecycle (app/core/base_service.py) -/

/-- State of a `BaseService` subclass: the `_initialized` flag plus the
service-specific inner state. -/
structure LifecycleState (σ : Type) where
  initialized : Bool
  inner : σ
deriving Repr, DecidableEq

/-- `BaseService.initialize`: run the service-specific `_initialize` and set
the flag, but only when the flag is not already set. -/
def BaseService.startup {σ : Type} (serviceInit : σ → σ)
    (s : LifecycleState σ) : LifecycleState σ :=
  if s.initialized then s else { initialized := true, inner := serviceInit s.inner }

/-- `BaseService.shutdown`: run the service-specific `_shutdown` and clear the
flag, but only when the flag is set. -/
def BaseService.shutdown {σ : Type} (serviceShutdown : σ → σ)
    (s : LifecycleState σ) : LifecycleState σ :=
  if s.initialized then { initialized := false, inner := serviceShutdown s.inner } else s

/-! ## `Application` service ordering (app/core/application.py) -/

/-- The five services `Application` manages. -/
inductive Svc where
  | embedding
  | llm
  | loader
  | chroma
  | rag
deriving Repr, DecidableEq

/-- The order in which `Application.initialize_services` brings services up
(application.py lines 36-54): embedding, llm, document loader, chroma,
rag. -/
def initOrder : List Svc := [.embedding, .llm, .loader, .chroma, .rag]

/-- The order in which `Application.shutdown_services` calls `shutdown`
(application.py lines 67-77): rag, chroma, llm, embedding — the document
loader is never shut down. -/
def shutdownOrder : List Svc := [.rag, .chroma, .llm, .embedding]

/-- Which services are currently initialized (each service object's
`_initialized` flag; the service objects themselves all exist). -/
structure AppState where
  embeddingUp : Bool
  llmUp : Bool
  loaderUp : Bool
  chromaUp : Bool
  ragUp : Bool
deriving Repr, DecidableEq

/-- Read one service's `_initialized` flag. -/
def AppState.get (st : AppState) : Svc → Bool
  | .embedding => st.embeddingUp
  | .llm => st.llmUp
  | .loader => st.loaderUp
  | .chroma => st.chromaUp
  | .rag => st.ragUp

/-- Clear one service's `_initialized` flag. -/
def AppState.setDown (st : AppState) : Svc → AppState
  | .embedding => { st with embeddingUp := false }
  | .llm => { st with llmUp := false }
  | .loader => { st with loaderUp := false }
  | .chroma => { st with chromaUp := false }
  | .rag => { st with ragUp := false }

/-- One pass over a teardown order.  Each step is `BaseService.shutdown`:
skipped when the service is not initialized; when its `_shutdown` raises
(`fails svc`), the flag stays set and the exception propagates out of the
single `try` block of `shutdown_services`, aborting the remaining steps with
the state as it was at the failure. -/
def shutdownSeq (fails : Svc → Bool) :
    List Svc → AppState → Except (Svc × AppState) AppState
  | [], st => .ok st
  | svc :: rest, st =>
      if st.get svc then
        if fails svc then .error (svc, st)
        else shutdownSeq fails rest (st.setDown svc)
      else shutdownSeq fails rest st

/-- `Application.shutdown_services` (application.py lines 62-82): tear the
services down in `shutdownOrder` inside one `try`; the first `_shutdown`
exception is logged and re-raised. -/
def shutdown_services (fails : Svc → Bool) (st : AppState) :
    Except (Svc × AppState) AppState :=
  shutdownSeq fails shutdownOrder st

/-! ## `RAGService.get_answer` (app/services/rag_service.py) -/

/-- The error taxonomy relevant to `get_answer`: the
`ValueError("Question cannot be empty")` raised by validation is the spec's
`InvalidArgument`. -/
inductive RagError where
  | invalidArgument : String → RagError
deriving Repr, DecidableEq

/-- State `get_answer` touches: whether the QA chain has been built, and how
many retrieval calls (`_qa_chain.ainvoke`, which queries the vector store)
have been made. -/
structure RagState where
  qaChainReady : Bool
  retrievalCalls : Nat
deriving Repr, DecidableEq

/-- The answer dictionary `get_answer` returns: the generated answer plus the
retrieved source documents (content and metadata). -/
structure RagAnswer where
  answer : String
  sources : List (String × DocMeta)
deriving Repr, DecidableEq

/-- Python `str.strip()`'s whitespace class (the ASCII part; the sources only
ever test ASCII text). -/
def pySpace (c : Char) : Bool :=
  c == ' ' || c == '\t' || c == '\n' || c == '\r' || c == '\x0b' || c == '\x0c'

/-- Python `str.strip()`: drop leading and trailing whitespace. -/
def pyStrip (s : String) : String :=
  String.mk (((s.toList.dropWhile pySpace).reverse.dropWhile pySpace).reverse)

/-- `RAGService.get_answer` (rag_service.py lines 135-182): build the QA
chain if absent (no retrieval happens there — it only wraps the store in a
retriever), then validate `not question or not question.strip()`, raising
`ValueError` before the chain is ever invoked; only on valid input call
`_qa_chain.ainvoke`, which performs the retrieval and generation (the
external chain is the `qaChain` parameter and always returns a well-formed
result). -/
def get_answer (qaChain : String → String × List (String × DocMeta))
    (st : RagState) (question : String) : Except RagError RagAnswer × RagState :=
  let st1 := { st with qaChainReady := true }
  if question = "" || pyStrip question = "" then
    (.error (.invalidArgument "Question cannot be empty"), st1)
  else
    let r := qaChain question
    (.ok { answer := r.1, sources := r.2 },
     { st1 with retrievalCalls := st1.retrievalCalls + 1 })

/-! ## Concrete states used by counterexamples and witnesses -/

/-- An initialized service over an empty collection. -/
def initEmptyState : ServiceState :=
  { initialized := true, docs := [], nextId := 0, clock := 0 }

/-- An uninitialized service (fresh object before `initialize()`). -/
def uninitState : ServiceState :=
  { initialized := false, docs := [], nextId := 0, clock := 0 }

/-- An initialized service that has already synced `a.txt` (one stored chunk
with content `"x"`). -/
def oneDocState : ServiceState :=
  { initialized := true
    docs := [{ id := 0, content := "x", meta := syncMeta "a.txt",
               createdAt := 0, updatedAt := 0 }]
    nextId := 1, clock := 1 }

/-- A splitter that keeps the whole text as a single chunk. -/
def idSplit : String → List String := fun c => [c]

/-- A splitter under which every file yields two chunks. -/
def twoChunkSplit : String → List String := fun _ => ["ch1", "ch2"]

/-- A one-file directory listing. -/
def demoDir : List (String × String) := [("f.txt", "ab")]

/-- The service state after syncing `demoDir` from `initEmptyState` with
`twoChunkSplit`: two chunks stored for `f.txt`. -/
def afterTwoChunks : ServiceState :=
  { initialized := true
    docs := [{ id := 0, content := "ch1", meta := syncMeta "f.txt",
               createdAt := 0, updatedAt := 0 },
             { id := 1, content := "ch2", meta := syncMeta "f.txt",
               createdAt := 1, updatedAt := 1 }]
    nextId := 2, clock := 2 }

/-- The service state after syncing `demoDir` from `initEmptyState` with
`idSplit`: one chunk stored for `f.txt`. -/
def afterOneChunk : ServiceState :=
  { initialized := true
    docs := [{ id := 0, content := "ab", meta := syncMeta "f.txt",
               createdAt := 0, updatedAt := 0 }]
    nextId := 1, clock := 1 }

/-- `afterTwoChunks` after `delete_all`: an empty collection with the id and
clock counters retained. -/
def emptiedState : ServiceState :=
  { initialized := true, docs := [], nextId := 2, clock := 2 }

/-- `emptiedState` after re-syncing `demoDir` with `twoChunkSplit`: the two
chunks of `f.txt` re-inserted under fresh ids. -/
def resyncedState : ServiceState :=
  { initialized := true
    docs := [{ id := 2, content := "ch1", meta := syncMeta "f.txt",
               createdAt := 2, updatedAt := 2 },
             { id := 3, content := "ch2", meta := syncMeta "f.txt",
               createdAt := 3, updatedAt := 3 }]
    nextId := 4, clock := 4 }

/-- All five application services up. -/
def allUp : AppState :=
  { embeddingUp := true, llmUp := true, loaderUp := true,
    chromaUp := true, ragUp := true }

/-- A teardown-failure pattern: only the rag service's `_shutdown` raises. -/
def failRagOnly : Svc → Bool
  | .rag => true
  | _ => false

/-! ## Theorems -/

/-- C7: every vector-store operation (add, query, get-all, delete-by-id,
delete-all, update, sync, and the processed check and metadata lookup)
invoked on an uninitialized store fails fast with the NotInitialized error;
no post-state is produced, so the store is not mutated, and the same call
succeeds once the service is initialized — the failure is fatal only to that
call. -/
theorem c7_uninitialized_ops_fail_fast
    (rank : List StoredDoc → Nat → List StoredDoc)
    (split : String → List String)
    (s : ServiceState) (content : String) (meta : DocMeta)
    (replyIds : List String) (docId k : Nat) (src fname : String)
    (dir : Option (List (String × String)))
    (h : s.initialized = false) :
    add_document s content meta replyIds = .error .notInitialized ∧
    similarity_search rank s k = .error .notInitialized ∧
    get_all_documents s = .error .notInitialized ∧
    delete_document s docId = .error .notInitialized ∧
    delete_all s = .error .notInitialized ∧
    update_document s docId content meta = .error .notInitialized ∧
    sync_directory split s dir = .error .notInitialized ∧
    is_file_processed s fname = .error .notInitialized ∧
    get_by_source s src = .error .notInitialized ∧
    (∃ r, add_document { s with initialized := true } content meta replyIds = .ok r) := by
  refine ⟨?_, ?_, ?_, ?_, ?_, ?_, ?_, ?_, ?_, ?_⟩ <;>
    simp [add_document, similarity_search, get_all_documents, delete_document,
          delete_all, update_document, sync_directory, is_file_processed,
          get_by_source, h]

/-- Witness for C7 at a concrete uninitialized state. -/
theorem c7_uninitialized_ops_fail_fast_witness :
    uninitState.initialized = false ∧
    (add_document uninitState "t" (syncMeta "a.txt") ["id0"] = .error .notInitialized ∧
     similarity_search (fun docs _ => docs) uninitState 4 = .error .notInitialized ∧
     get_all_documents uninitState = .error .notInitialized ∧
     delete_document uninitState 0 = .error .notInitialized ∧
     delete_all uninitState = .error .notInitialized ∧
     update_document uninitState 0 "t" (syncMeta "a.txt") = .error .notInitialized ∧
     sync_directory idSplit uninitState (some demoDir) = .error .notInitialized ∧
     is_file_processed uninitState "a.txt" = .error .notInitialized ∧
     get_by_source uninitState "a.txt" = .error .notInitialized ∧
     (∃ r, add_document { uninitState with initialized := true } "t" (syncMeta "a.txt")
        ["id0"] = .ok r)) :=
  ⟨rfl, c7_uninitialized_ops_fail_fast (fun docs _ => docs) idSplit uninitState "t"
    (syncMeta "a.txt") ["id0"] 0 4 "a.txt" "a.txt" (some demoDir) rfl⟩

/-- C8: syncing an absent directory creates it (the returned listing is the
now-present empty directory) and returns the all-zero report with the store
untouched, raising no error. -/
theorem c8_absent_directory_zero_report
    (split : String → List String) (s : ServiceState)
    (h : s.initialized = true) :
    sync_directory split s none = .ok (⟨0, 0, 0, 0⟩, s, some []) := by
  simp [sync_directory, h, syncLoop]

/-- Witness for C8 at a concrete initialized state. -/
theorem c8_absent_directory_zero_report_witness :
    initEmptyState.initialized = true ∧
    sync_directory idSplit initEmptyState none = .ok (⟨0, 0, 0, 0⟩, initEmptyState, some []) :=
  ⟨rfl, c8_absent_directory_zero_report idSplit initEmptyState rfl⟩

/-- C9: the lifecycle base class makes `initialize` idempotent — a call on an
already-initialized service returns it unchanged (service-specific init is
not re-run), a repeated call is absorbed, the flag ends up set — and
`shutdown` on a service that is not initialized is a no-op. -/
theorem c9_lifecycle_idempotent {σ : Type} (f g : σ → σ) (s : LifecycleState σ) :
    (s.initialized = true → BaseService.startup f s = s) ∧
    BaseService.startup f (BaseService.startup f s) = BaseService.startup f s ∧
    (BaseService.startup f s).initialized = true ∧
    (s.initialized = false → BaseService.shutdown g s = s) := by
  refine ⟨fun h => by simp [BaseService.startup, h], ?_, ?_, fun h => by
    simp [BaseService.shutdown, h]⟩ <;>
  · cases hs : s.initialized <;> simp [BaseService.startup, hs]

/-- Witness for C9: a second `initialize` on an initialized service and a
`shutdown` on an uninitialized one both leave the state unchanged. -/
theorem c9_lifecycle_idempotent_witness :
    BaseService.startup Nat.succ ⟨true, 5⟩ = (⟨true, 5⟩ : LifecycleState Nat) ∧
    BaseService.shutdown Nat.succ ⟨false, 5⟩ = (⟨false, 5⟩ : LifecycleState Nat) :=
  ⟨(c9_lifecycle_idempotent Nat.succ Nat.succ ⟨true, 5⟩).1 rfl,
   (c9_lifecycle_idempotent Nat.succ Nat.succ ⟨false, 5⟩).2.2.2 rfl⟩

/-- C10: when the backing store's `add_documents` reply is an empty id list,
`add_document` returns `""` (`ids[0] if ids else ""`) as a successful result
instead of raising, so the caller receives the empty string as the id. -/
theorem c10_empty_reply_returns_empty_id
    (s : ServiceState) (content : String) (meta : DocMeta)
    (h : s.initialized = true) :
    add_document s content meta [] = .ok ("", addDocCore s content meta) := by
  simp [add_document, h]

/-- Witness for C10 at a concrete initialized state. -/
theorem c10_empty_reply_returns_empty_id_witness :
    initEmptyState.initialized = true ∧
    add_document initEmptyState "t" (syncMeta "a.txt") [] =
      .ok ("", addDocCore initEmptyState "t" (syncMeta "a.txt")) :=
  ⟨rfl, c10_empty_reply_returns_empty_id initEmptyState "t" (syncMeta "a.txt") rfl⟩

/-- A string all of whose characters are Python whitespace strips to the
empty string. -/
theorem pyStrip_eq_empty_of_all_space {q : String}
    (h : q.toList.all pySpace = true) : pyStrip q = "" := by
  have h1 : q.toList.dropWhile pySpace = [] :=
    List.dropWhile_eq_nil_iff.mpr (by simpa using List.all_eq_true.mp h)
  unfold pyStrip
  rw [h1]
  rfl

/-- C6: an empty or whitespace-only question makes `get_answer` fail with the
InvalidArgument-class `ValueError("Question cannot be empty")`, and the
failure happens before any retrieval call against the vector store — the
retrieval-call count is unchanged. -/
theorem c6_blank_question_rejected_before_retrieval
    (qaChain : String → String × List (String × DocMeta))
    (st : RagState) (q : String)
    (h : q.toList.all pySpace = true) :
    (get_answer qaChain st q).1 = .error (.invalidArgument "Question cannot be empty") ∧
    (get_answer qaChain st q).2.retrievalCalls = st.retrievalCalls := by
  have hs : pyStrip q = "" := pyStrip_eq_empty_of_all_space h
  constructor <;> simp [get_answer, hs]

/-- Witness for C6 on the whitespace-only question `"  \t\n"`. -/
theorem c6_blank_question_rejected_before_retrieval_witness :
    ("  \t\n".toList.all pySpace = true) ∧
    ((get_answer (fun q => (q, [])) ⟨false, 0⟩ "  \t\n").1 =
      .error (.invalidArgument "Question cannot be empty") ∧
     (get_answer (fun q => (q, [])) ⟨false, 0⟩ "  \t\n").2.retrievalCalls =
      (⟨false, 0⟩ : RagState).retrievalCalls) :=
  ⟨by decide,
   c6_blank_question_rejected_before_retrieval (fun q => (q, [])) ⟨false, 0⟩ "  \t\n"
     (by decide)⟩

/-- C5 counterexample: the shutdown sequence `rag, chroma, llm, embedding` is
not the exact reverse of the initialization sequence (the document loader is
initialized but never shut down), and teardown is not best-effort: with all
five services up and the rag service's `_shutdown` raising,
`shutdown_services` aborts at once with the state unchanged — chroma, llm and
embedding are all still initialized. -/
theorem c5_counterexample :
    shutdownOrder ≠ initOrder.reverse ∧
    Svc.loader ∈ initOrder ∧ Svc.loader ∉ shutdownOrder ∧
    shutdown_services failRagOnly allUp = .error (.rag, allUp) ∧
    allUp.chromaUp = true ∧ allUp.llmUp = true ∧ allUp.embeddingUp = true :=
  ⟨by decide, by decide, by decide, rfl, rfl, rfl, rfl⟩

/-- C5 (amended): shutdown visits `rag, chroma, llm, embedding` — the reverse
of the initialization order with the document loader dropped, which is never
shut down — and is not best-effort: when every `_shutdown` succeeds all four
are torn down in that order (the loader's flag untouched), but a failing rag
`_shutdown` aborts the whole sequence with nothing else torn down, the
exception propagating out of `shutdown_services`. -/
theorem c5_shutdown_reverse_except_loader_abort_on_failure :
    shutdownOrder = initOrder.reverse.erase .loader ∧
    (∀ (fails : Svc → Bool) (st : AppState), (∀ svc, fails svc = false) →
      shutdown_services fails st =
        .ok { st with ragUp := false, chromaUp := false,
                      llmUp := false, embeddingUp := false }) ∧
    (∀ (fails : Svc → Bool) (st : AppState),
      st.ragUp = true → fails .rag = true →
      shutdown_services fails st = .error (.rag, st)) := by
  refine ⟨by decide, ?_, ?_⟩
  · intro fails st hok
    obtain ⟨e, l, lo, c, r⟩ := st
    cases e <;> cases l <;> cases c <;> cases r <;>
      simp [shutdown_services, shutdownOrder, shutdownSeq, AppState.get,
            AppState.setDown, hok]
  · intro fails st hr hf
    simp [shutdown_services, shutdownOrder, shutdownSeq, AppState.get, hr, hf]

/-- Witness for C5 (amended): a failure-free teardown from the all-up state
clears rag, chroma, llm and embedding but leaves the loader up, and a failing
rag teardown aborts with the state unchanged. -/
theorem c5_shutdown_reverse_except_loader_abort_on_failure_witness :
    shutdown_services (fun _ => false) allUp =
      .ok { allUp with ragUp := false, chromaUp := false,
                       llmUp := false, embeddingUp := false } ∧
    allUp.ragUp = true ∧ failRagOnly .rag = true ∧
    shutdown_services failRagOnly allUp = .error (.rag, allUp) :=
  ⟨(c5_shutdown_reverse_except_loader_abort_on_failure).2.1 (fun _ => false) allUp
      (fun _ => rfl),
   rfl, rfl,
   (c5_shutdown_reverse_except_loader_abort_on_failure).2.2 failRagOnly allUp rfl rfl⟩

/-- C3: `update_document` is delete-then-add, never an in-place patch: on any
stored id it succeeds with the state of `delete_document` followed by
`add_document` (whatever ids the backing store replies), and a subsequent
metadata lookup on the new metadata's `source` finds the new content carrying
an `updated_at` strictly later than the replaced document's.  The hypothesis
that stored timestamps precede the clock holds for every state the
operations construct, since every write stamps the then-current clock and
advances it. -/
theorem c3_update_is_delete_then_add
    (s : ServiceState) (docId : Nat) (c : String) (m : DocMeta) (d₀ : StoredDoc)
    (hinit : s.initialized = true)
    (hmem : d₀ ∈ s.docs) (_hid : d₀.id = docId)
    (hclock : ∀ d ∈ s.docs, d.updatedAt < s.clock) :
    ∃ s', update_document s docId c m = .ok s' ∧
      delete_document s docId = .ok (deleteDocCore s docId) ∧
      (∀ replyIds, ∃ rid,
        add_document (deleteDocCore s docId) c m replyIds = .ok (rid, s')) ∧
      (∃ found, get_by_source s' m.source = .ok found ∧
        ∃ dNew ∈ found, dNew.content = c ∧ d₀.updatedAt < dNew.updatedAt) := by
  refine ⟨addDocCore (deleteDocCore s docId) c m, ?_, ?_, ?_, ?_⟩
  · simp [update_document, hinit]
  · simp [delete_document, hinit]
  · intro replyIds
    refine ⟨(match replyIds with | [] => "" | i :: _ => i), ?_⟩
    simp [add_document, deleteDocCore, hinit]
  · have hinit' : (addDocCore (deleteDocCore s docId) c m).initialized = true := by
      simp [addDocCore, deleteDocCore, hinit]
    refine ⟨(addDocCore (deleteDocCore s docId) c m).docs.filter
        (fun d => d.meta.source = m.source), by simp [get_by_source, hinit'], ?_⟩
    refine ⟨{ id := s.nextId, content := c, meta := m,
              createdAt := s.clock, updatedAt := s.clock }, ?_, rfl, ?_⟩
    · simp [addDocCore, deleteDocCore, List.mem_filter]
    · exact hclock d₀ hmem

/-- Witness for C3: updating the single stored chunk of `a.txt` with new
content and the same source metadata. -/
theorem c3_update_is_delete_then_add_witness :
    oneDocState.initialized = true ∧
    (∃ d₀ ∈ oneDocState.docs, d₀.id = 0 ∧
      (∀ d ∈ oneDocState.docs, d.updatedAt < oneDocState.clock)) ∧
    (∃ s', update_document oneDocState 0 "new" (syncMeta "a.txt") = .ok s' ∧
      delete_document oneDocState 0 = .ok (deleteDocCore oneDocState 0) ∧
      (∀ replyIds, ∃ rid,
        add_document (deleteDocCore oneDocState 0) "new" (syncMeta "a.txt") replyIds =
          .ok (rid, s')) ∧
      (∃ found, get_by_source s' (syncMeta "a.txt").source = .ok found ∧
        ∃ dNew ∈ found, dNew.content = "new" ∧
          ({ id := 0, content := "x", meta := syncMeta "a.txt", createdAt := 0,
             updatedAt := 0 } : StoredDoc).updatedAt < dNew.updatedAt)) :=
  ⟨rfl,
   ⟨{ id := 0, content := "x", meta := syncMeta "a.txt", createdAt := 0, updatedAt := 0 },
    by simp [oneDocState], rfl, by decide⟩,
   c3_update_is_delete_then_add oneDocState 0 "new" (syncMeta "a.txt")
     { id := 0, content := "x", meta := syncMeta "a.txt", createdAt := 0, updatedAt := 0 }
     rfl (by simp [oneDocState]) rfl (by decide)⟩

/-! ## Structural lemmas about the sync loop -/

/-- `addDocCore` preserves an existing `source` hit. -/
theorem fileProcessed_addDocCore_of (st : ServiceState) (c : String) (meta : DocMeta)
    (fn : String) (h : fileProcessed st fn = true) :
    fileProcessed (addDocCore st c meta) fn = true := by
  simp only [fileProcessed, addDocCore] at h ⊢
  simp [List.any_append, h]

/-- Adding a chunk stamped with `syncMeta fn` marks `fn` as processed. -/
theorem fileProcessed_addDocCore_self (st : ServiceState) (c fn : String) :
    fileProcessed (addDocCore st c (syncMeta fn)) fn = true := by
  simp [fileProcessed, addDocCore, List.any_append, syncMeta]

/-- `addChunks` does not change the initialized flag. -/
theorem addChunks_initialized (filename : String) (chunks : List String)
    (stats : SyncStats) (st : ServiceState) :
    (addChunks filename chunks stats st).2.initialized = st.initialized := by
  induction chunks generalizing stats st with
  | nil => rfl
  | cons ch rest ih =>
      simp only [addChunks]
      rw [ih]
      rfl

/-- `addChunks` increments `processed_files` once per chunk and leaves the
other counters alone. -/
theorem addChunks_stats_fields (filename : String) (chunks : List String)
    (stats : SyncStats) (st : ServiceState) :
    (addChunks filename chunks stats st).1.total_files = stats.total_files ∧
    (addChunks filename chunks stats st).1.skipped_files = stats.skipped_files ∧
    (addChunks filename chunks stats st).1.error_files = stats.error_files ∧
    (addChunks filename chunks stats st).1.processed_files
      = stats.processed_files + chunks.length := by
  induction chunks generalizing stats st with
  | nil => simp [addChunks]
  | cons ch rest ih =>
      simp only [addChunks]
      obtain ⟨h1, h2, h3, h4⟩ :=
        ih { stats with processed_files := stats.processed_files + 1 }
          (addDocCore st ch (syncMeta filename))
      refine ⟨by simpa using h1, by simpa using h2, by simpa using h3, ?_⟩
      rw [h4]
      simp
      omega

/-- `addChunks` appends one stored document per chunk. -/
theorem addChunks_docs_length (filename : String) (chunks : List String)
    (stats : SyncStats) (st : ServiceState) :
    (addChunks filename chunks stats st).2.docs.length
      = st.docs.length + chunks.length := by
  induction chunks generalizing stats st with
  | nil => simp [addChunks]
  | cons ch rest ih =>
      simp only [addChunks]
      rw [ih]
      simp [addDocCore]
      omega

/-- `addChunks` preserves an existing `source` hit. -/
theorem fileProcessed_addChunks_mono (filename : String) (chunks : List String)
    (stats : SyncStats) (st : ServiceState) (fn : String)
    (h : fileProcessed st fn = true) :
    fileProcessed (addChunks filename chunks stats st).2 fn = true := by
  induction chunks generalizing stats st with
  | nil => simpa [addChunks] using h
  | cons ch rest ih =>
      simp only [addChunks]
      exact ih _ _ (fileProcessed_addDocCore_of _ _ _ _ h)

/-- After `addChunks` with at least one chunk, the file counts as
processed. -/
theorem fileProcessed_addChunks_self (filename : String) (chunks : List String)
    (stats : SyncStats) (st : ServiceState) (h : chunks ≠ []) :
    fileProcessed (addChunks filename chunks stats st).2 filename = true := by
  cases chunks with
  | nil => exact absurd rfl h
  | cons ch rest =>
      simp only [addChunks]
      exact fileProcessed_addChunks_mono _ _ _ _ _
        (fileProcessed_addDocCore_self _ _ _)

/-- Unfolding the sync loop at a non-`.txt` file: silently ignored. -/
theorem syncLoop_cons_other (split : String → List String) (f c : String)
    (rest : List (String × String)) (stats : SyncStats) (st : ServiceState)
    (h1 : pyEndsWith f ".txt" = false) :
    syncLoop split ((f, c) :: rest) stats st = syncLoop split rest stats st := by
  simp [syncLoop, h1]

/-- Unfolding the sync loop at an already-processed `.txt` file: count it in
`total_files` and `skipped_files` and leave the store untouched. -/
theorem syncLoop_cons_skip (split : String → List String) (f c : String)
    (rest : List (String × String)) (stats : SyncStats) (st : ServiceState)
    (h1 : pyEndsWith f ".txt" = true) (h2 : fileProcessed st f = true) :
    syncLoop split ((f, c) :: rest) stats st =
      syncLoop split rest
        { stats with total_files := stats.total_files + 1,
                     skipped_files := stats.skipped_files + 1 } st := by
  simp [syncLoop, h1, h2]

/-- Unfolding the sync loop at a new `.txt` file: count it in `total_files`
and add its chunks. -/
theorem syncLoop_cons_process (split : String → List String) (f c : String)
    (rest : List (String × String)) (stats : SyncStats) (st : ServiceState)
    (h1 : pyEndsWith f ".txt" = true) (h2 : fileProcessed st f = false) :
    syncLoop split ((f, c) :: rest) stats st =
      syncLoop split rest
        (addChunks f (split c)
          { stats with total_files := stats.total_files + 1 } st).1
        (addChunks f (split c)
          { stats with total_files := stats.total_files + 1 } st).2 := by
  simp [syncLoop, h1, h2]

/-- The sync loop does not change the initialized flag. -/
theorem syncLoop_initialized (split : String → List String)
    (files : List (String × String)) (stats : SyncStats) (st : ServiceState) :
    (syncLoop split files stats st).2.initialized = st.initialized := by
  induction files generalizing stats st with
  | nil => rfl
  | cons fc rest ih =>
      obtain ⟨f, c⟩ := fc
      cases h1 : pyEndsWith f ".txt"
      · rw [syncLoop_cons_other split f c rest stats st h1, ih]
      · cases h2 : fileProcessed st f
        · rw [syncLoop_cons_process split f c rest stats st h1 h2, ih,
              addChunks_initialized]
        · rw [syncLoop_cons_skip split f c rest stats st h1 h2, ih]

/-- The sync loop preserves an existing `source` hit: documents are only ever
added, never removed, during a sync. -/
theorem fileProcessed_syncLoop_mono (split : String → List String)
    (files : List (String × String)) (stats : SyncStats) (st : ServiceState)
    (fn : String) (h : fileProcessed st fn = true) :
    fileProcessed (syncLoop split files stats st).2 fn = true := by
  induction files generalizing stats st with
  | nil => simpa [syncLoop] using h
  | cons fc rest ih =>
      obtain ⟨f, c⟩ := fc
      cases h1 : pyEndsWith f ".txt"
      · rw [syncLoop_cons_other split f c rest stats st h1]
        exact ih _ _ h
      · cases h2 : fileProcessed st f
        · rw [syncLoop_cons_process split f c rest stats st h1 h2]
          exact ih _ _ (fileProcessed_addChunks_mono _ _ _ _ _ h)
        · rw [syncLoop_cons_skip split f c rest stats st h1 h2]
          exact ih _ _ h

/-- After a sync pass, every listed `.txt` file whose content splits into at
least one chunk counts as processed. -/
theorem syncLoop_processes_all (split : String → List String)
    (files : List (String × String)) (stats : SyncStats) (st : ServiceState) :
    ∀ fc ∈ files, pyEndsWith fc.1 ".txt" = true → split fc.2 ≠ [] →
      fileProcessed (syncLoop split files stats st).2 fc.1 = true := by
  induction files generalizing stats st with
  | nil => intro fc hfc; simp at hfc
  | cons hd rest ih =>
      obtain ⟨f, c⟩ := hd
      intro fc hfc htxt hne
      rcases List.mem_cons.mp hfc with heq | hmem
      · subst heq
        simp only at htxt hne
        cases h2 : fileProcessed st f
        · rw [syncLoop_cons_process split f c rest stats st htxt h2]
          exact fileProcessed_syncLoop_mono _ _ _ _ _
            (fileProcessed_addChunks_self _ _ _ _ hne)
        · rw [syncLoop_cons_skip split f c rest stats st htxt h2]
          exact fileProcessed_syncLoop_mono _ _ _ _ _ h2
      · cases h1 : pyEndsWith f ".txt"
        · rw [syncLoop_cons_other split f c rest stats st h1]
          exact ih _ _ fc hmem htxt hne
        · cases h2 : fileProcessed st f
          · rw [syncLoop_cons_process split f c rest stats st h1 h2]
            exact ih _ _ fc hmem htxt hne
          · rw [syncLoop_cons_skip split f c rest stats st h1 h2]
            exact ih _ _ fc hmem htxt hne

/-- When every listed `.txt` file is already processed, a sync pass touches
nothing: the state is returned unchanged, `processed_files` and `error_files`
stay zero, and both `total_files` and `skipped_files` grow by the number of
`.txt` files. -/
theorem syncLoop_all_processed (split : String → List String)
    (files : List (String × String)) (stats : SyncStats) (st : ServiceState)
    (h : ∀ fc ∈ files, pyEndsWith fc.1 ".txt" = true → fileProcessed st fc.1 = true) :
    (syncLoop split files stats st).2 = st ∧
    (syncLoop split files stats st).1.processed_files = stats.processed_files ∧
    (syncLoop split files stats st).1.error_files = stats.error_files ∧
    (syncLoop split files stats st).1.total_files
      = stats.total_files + (files.filter (fun fc => pyEndsWith fc.1 ".txt")).length ∧
    (syncLoop split files stats st).1.skipped_files
      = stats.skipped_files + (files.filter (fun fc => pyEndsWith fc.1 ".txt")).length := by
  revert h
  induction files generalizing stats with
  | nil => intro h; simp [syncLoop]
  | cons hd rest ih =>
      intro h
      obtain ⟨f, c⟩ := hd
      have hrest : ∀ fc ∈ rest, pyEndsWith fc.1 ".txt" = true →
          fileProcessed st fc.1 = true :=
        fun fc hfc => h fc (List.mem_cons_of_mem _ hfc)
      cases h1 : pyEndsWith f ".txt"
      · rw [syncLoop_cons_other split f c rest stats st h1]
        obtain ⟨k1, k2, k3, k4, k5⟩ := ih stats hrest
        refine ⟨k1, k2, k3, ?_, ?_⟩
        · rw [k4]
          simp [h1]
        · rw [k5]
          simp [h1]
      · have hp : fileProcessed st f = true := h (f, c) (List.mem_cons_self _ _) h1
        rw [syncLoop_cons_skip split f c rest stats st h1 hp]
        obtain ⟨k1, k2, k3, k4, k5⟩ :=
          ih { stats with total_files := stats.total_files + 1,
                          skipped_files := stats.skipped_files + 1 } hrest
        refine ⟨k1, by simpa using k2, by simpa using k3, ?_, ?_⟩
        · rw [k4]
          simp [h1]
          omega
        · rw [k5]
          simp [h1]
          omega

/-- The `processed_files` counter grows by exactly the number of documents
the sync pass adds to the store. -/
theorem syncLoop_processed_counts_docs (split : String → List String)
    (files : List (String × String)) (stats : SyncStats) (st : ServiceState) :
    (syncLoop split files stats st).1.processed_files + st.docs.length
      = stats.processed_files + (syncLoop split files stats st).2.docs.length := by
  induction files generalizing stats st with
  | nil => simp [syncLoop]
  | cons hd rest ih =>
      obtain ⟨f, c⟩ := hd
      cases h1 : pyEndsWith f ".txt"
      · rw [syncLoop_cons_other split f c rest stats st h1]
        exact ih _ _
      · cases h2 : fileProcessed st f
        · rw [syncLoop_cons_process split f c rest stats st h1 h2]
          have hA := (addChunks_stats_fields f (split c)
            { stats with total_files := stats.total_files + 1 } st).2.2.2
          have hL := addChunks_docs_length f (split c)
            { stats with total_files := stats.total_files + 1 } st
          have hI := ih (addChunks f (split c)
              { stats with total_files := stats.total_files + 1 } st).1
            (addChunks f (split c)
              { stats with total_files := stats.total_files + 1 } st).2
          have hsp : ({ stats with total_files := stats.total_files + 1 } :
              SyncStats).processed_files = stats.processed_files := rfl
          omega
        · rw [syncLoop_cons_skip split f c rest stats st h1 h2]
          have hI := ih { stats with total_files := stats.total_files + 1,
                                     skipped_files := stats.skipped_files + 1 } st
          have hsp : ({ stats with total_files := stats.total_files + 1,
                                   skipped_files := stats.skipped_files + 1 } :
              SyncStats).processed_files = stats.processed_files := rfl
          omega

/-- C1 counterexample: `a.txt` was previously synced with content `"x"`; its
content is now `"y"` (no stored chunk has that content), yet `sync_directory`
counts it in `skipped_files` — not `processed_files` — and returns the store
unchanged: the changed file's chunks are not re-read, re-chunked or
re-inserted.  The skip check is filename presence only; no fingerprint is
compared (`_should_update_document`, which would, is never called). -/
theorem c1_counterexample :
    fileProcessed oneDocState "a.txt" = true ∧
    (∀ d ∈ oneDocState.docs, d.content ≠ "y") ∧
    sync_directory idSplit oneDocState (some [("a.txt", "y")]) =
      .ok (⟨1, 0, 1, 0⟩, oneDocState, some [("a.txt", "y")]) :=
  ⟨by decide, by decide, rfl⟩

/-- C1 (amended): for a previously-synced file, sync skips it (counting it in
`skipped_files`) whenever indexed chunks exist for its filename, regardless
of the file's current content — no content fingerprint is consulted — so
after any edit to a previously-synced file the next sync still skips it,
returning the store state unchanged with nothing re-inserted. -/
theorem c1_skip_by_filename_ignores_content (split : String → List String)
    (st : ServiceState) (f c : String)
    (hinit : st.initialized = true)
    (htxt : pyEndsWith f ".txt" = true)
    (hproc : fileProcessed st f = true) :
    sync_directory split st (some [(f, c)]) =
      .ok (⟨1, 0, 1, 0⟩, st, some [(f, c)]) := by
  unfold sync_directory
  rw [hinit]
  simp only [Option.getD_some]
  rw [syncLoop_cons_skip split f c [] ⟨0, 0, 0, 0⟩ st htxt hproc]
  simp [syncLoop]

/-- Witness for the amended C1: the previously-synced `a.txt` with edited
content `"y"`. -/
theorem c1_skip_by_filename_ignores_content_witness :
    oneDocState.initialized = true ∧
    (pyEndsWith "a.txt" ".txt" = true) ∧
    fileProcessed oneDocState "a.txt" = true ∧
    sync_directory idSplit oneDocState (some [("a.txt", "y")]) =
      .ok (⟨1, 0, 1, 0⟩, oneDocState, some [("a.txt", "y")]) :=
  ⟨rfl, by decide, by decide,
   c1_skip_by_filename_ignores_content idSplit oneDocState "a.txt" "y" rfl
     (by decide) (by decide)⟩

/-- C2 counterexample: after `delete_all`, syncing a one-file directory whose
file splits into two chunks yields `processed_files = 2` but
`total_files = 1`: the counter is incremented once per chunk, not once per
file, so `processed_files == total_files` fails. -/
theorem c2_counterexample :
    delete_all afterTwoChunks = .ok emptiedState ∧
    sync_directory twoChunkSplit emptiedState (some demoDir) =
      .ok (⟨1, 2, 0, 0⟩, resyncedState, some demoDir) ∧
    (⟨1, 2, 0, 0⟩ : SyncStats).processed_files ≠
      (⟨1, 2, 0, 0⟩ : SyncStats).total_files :=
  ⟨rfl, rfl, by decide⟩

/-- C2 (amended): during sync, `processed_files` is incremented once per
chunk inserted, not once per file; consequently, after `delete_all()` a sync
returns `processed_files` equal to the number of chunks then in the store —
which equals `total_files` only when every file yields exactly one chunk. -/
theorem c2_processed_counts_chunks (split : String → List String)
    (st st₀ : ServiceState) (files : List (String × String))
    (stats' : SyncStats) (st' : ServiceState)
    (d' : Option (List (String × String)))
    (hda : delete_all st = .ok st₀)
    (hs : sync_directory split st₀ (some files) = .ok (stats', st', d')) :
    stats'.processed_files = st'.docs.length := by
  unfold delete_all at hda
  rcases hini : st.initialized with _ | _
  · rw [hini] at hda
    simp at hda
  · rw [hini] at hda
    simp only [Bool.true_eq_false, if_false, Except.ok.injEq] at hda
    have hdocs : st₀.docs = [] := by rw [← hda]
    have hini0 : st₀.initialized = true := by rw [← hda]
    unfold sync_directory at hs
    rw [hini0] at hs
    simp only [Bool.true_eq_false, if_false, Option.getD_some,
      Except.ok.injEq, Prod.mk.injEq] at hs
    obtain ⟨hstats, hst, -⟩ := hs
    have hc := syncLoop_processed_counts_docs split files ⟨0, 0, 0, 0⟩ st₀
    rw [hstats, hst, hdocs] at hc
    simpa using hc

/-- Witness for the amended C2: `delete_all` then re-sync with a two-chunk
splitter gives `processed_files = 2`, the size of the re-populated store. -/
theorem c2_processed_counts_chunks_witness :
    delete_all afterTwoChunks = .ok emptiedState ∧
    sync_directory twoChunkSplit emptiedState (some demoDir) =
      .ok (⟨1, 2, 0, 0⟩, resyncedState, some demoDir) ∧
    (⟨1, 2, 0, 0⟩ : SyncStats).processed_files = resyncedState.docs.length :=
  ⟨rfl, rfl,
   c2_processed_counts_chunks twoChunkSplit afterTwoChunks emptiedState demoDir
     ⟨1, 2, 0, 0⟩ resyncedState (some demoDir) rfl rfl⟩

/-- C4 counterexample: with a file that splits into two chunks, the first
sync of an empty store reports `processed_files = 2`, while the second sync
of the unchanged directory reports `skipped_files = 1 ≠ 2`: the second run's
`skipped_files` counts files but the first run's `processed_files` counts
chunks, so they differ. -/
theorem c4_counterexample :
    sync_directory twoChunkSplit initEmptyState (some demoDir) =
      .ok (⟨1, 2, 0, 0⟩, afterTwoChunks, some demoDir) ∧
    sync_directory twoChunkSplit afterTwoChunks (some demoDir) =
      .ok (⟨1, 0, 1, 0⟩, afterTwoChunks, some demoDir) ∧
    (⟨1, 0, 1, 0⟩ : SyncStats).skipped_files ≠
      (⟨1, 2, 0, 0⟩ : SyncStats).processed_files :=
  ⟨rfl, rfl, by decide⟩

/-- C4 (amended): running sync twice with no filesystem change gives
`processed_files = 0` on the second run, whose `skipped_files` equals its
`total_files` — the number of `.txt` files, not the first run's
`processed_files`, which counts chunks — and the second run leaves the store
exactly as the first left it.  (Stated for directories whose `.txt` files
each split into at least one chunk, which is what the code's splitter
produces on the non-empty files it re-reads.) -/
theorem c4_second_sync_no_reprocess (split : String → List String)
    (st : ServiceState) (files : List (String × String))
    (stats1 : SyncStats) (st1 : ServiceState) (d1 : Option (List (String × String)))
    (stats2 : SyncStats) (st2 : ServiceState) (d2 : Option (List (String × String)))
    (hinit : st.initialized = true)
    (hchunks : ∀ fc ∈ files, pyEndsWith fc.1 ".txt" = true → split fc.2 ≠ [])
    (h1 : sync_directory split st (some files) = .ok (stats1, st1, d1))
    (h2 : sync_directory split st1 (some files) = .ok (stats2, st2, d2)) :
    stats2.processed_files = 0 ∧ stats2.error_files = 0 ∧
    stats2.skipped_files = stats2.total_files ∧ st2 = st1 := by
  unfold sync_directory at h1
  simp only [hinit, Bool.true_eq_false, if_false, Option.getD_some,
    Except.ok.injEq, Prod.mk.injEq] at h1
  obtain ⟨-, hst1, -⟩ := h1
  have hinit1 : st1.initialized = true := by
    rw [← hst1, syncLoop_initialized, hinit]
  have hall : ∀ fc ∈ files, pyEndsWith fc.1 ".txt" = true →
      fileProcessed st1 fc.1 = true := by
    intro fc hfc htxt
    rw [← hst1]
    exact syncLoop_processes_all split files ⟨0, 0, 0, 0⟩ st fc hfc htxt
      (hchunks fc hfc htxt)
  unfold sync_directory at h2
  simp only [hinit1, Bool.true_eq_false, if_false, Option.getD_some,
    Except.ok.injEq, Prod.mk.injEq] at h2
  obtain ⟨hstats2, hst2, -⟩ := h2
  obtain ⟨k1, k2, k3, k4, k5⟩ :=
    syncLoop_all_processed split files ⟨0, 0, 0, 0⟩ st1 hall
  rw [← hstats2, ← hst2]
  exact ⟨k2, k3, by rw [k5, k4], k1⟩

/-- Witness for the amended C4: two consecutive syncs of the one-file
directory from an empty store. -/
theorem c4_second_sync_no_reprocess_witness :
    initEmptyState.initialized = true ∧
    (∀ fc ∈ demoDir, pyEndsWith fc.1 ".txt" = true → idSplit fc.2 ≠ []) ∧
    ((⟨1, 0, 1, 0⟩ : SyncStats).processed_files = 0 ∧
     (⟨1, 0, 1, 0⟩ : SyncStats).error_files = 0 ∧
     (⟨1, 0, 1, 0⟩ : SyncStats).skipped_files =
       (⟨1, 0, 1, 0⟩ : SyncStats).total_files ∧
     afterOneChunk = afterOneChunk) :=
  ⟨rfl, by decide,
   c4_second_sync_no_reprocess idSplit initEmptyState demoDir
     ⟨1, 1, 0, 0⟩ afterOneChunk (some demoDir)
     ⟨1, 0, 1, 0⟩ afterOneChunk (some demoDir)
     rfl (by decide) rfl rfl⟩

end LDC
